import Mathlib

/-!
Verification development for the w2g queue bot.

The bot's Link Attribution Engine (`index.js`, the Telegraf message handler
and its helpers) and the URL canonicalizer (`src/w2g.js`) are shallowly
embedded below.  JavaScript values are modelled as follows: nullable
values become `Option`, truthiness checks on strings and numbers become
explicit (`strTruthy`, `truthyNat`, with `""` and `0` falsy), timestamps
are `Nat` milliseconds, and the host runtime's WHATWG `URL` object is an
abstract interface `UrlImpl` (a parser plus a serializer for the canonical
watch URL), since `new URL` is a platform builtin and not repository code.
Strings are compared at character granularity, which is faithful for the
ASCII data the engine inspects.
-/

namespace W2G

/-- JS string truthiness: `null`/`undefined` and `""` are falsy. -/
def strTruthy : Option String → Option String
  | none => none
  | some s => if s = "" then none else some s

/-- JS number truthiness for ids and timestamps: `null`/`undefined` and `0` are falsy. -/
def truthyNat : Option Nat → Option Nat
  | none => none
  | some n => if n = 0 then none else some n

/-- `text.substring(off, off + len)` - characters in `[off, off+len)`, clamped. -/
def substringJS (s : String) (off len : Nat) : String :=
  ((s.toList.drop off).take len).asString

/-- ASCII lowercasing of one character, as `toLowerCase` does on ASCII input. -/
def charLower (c : Char) : Char :=
  if 'A' ≤ c ∧ c ≤ 'Z' then Char.ofNat (c.toNat + 32) else c

/-- `s.toLowerCase()` on the ASCII fragments the engine compares. -/
def strLower (s : String) : String :=
  (s.toList.map charLower).asString

/-- Character-list prefix test (helper for the substring test below). -/
def listPre : List Char → List Char → Bool
  | [], _ => true
  | _ :: _, [] => false
  | a :: as, b :: bs => a = b && listPre as bs

/-- Helper loop for `containsSub`. -/
def subLoop (sub : List Char) : List Char → Bool
  | [] => listPre sub []
  | c :: rest => listPre sub (c :: rest) || subLoop sub rest

/-- JS `s.includes(sub)`. -/
def containsSub (s sub : String) : Bool :=
  subLoop sub.toList s.toList

/-- Remove the first occurrence of a character (helper for `replace('@','')`). -/
def removeFirstChar (ch : Char) : List Char → List Char
  | [] => []
  | c :: rest => if c = ch then rest else c :: removeFirstChar ch rest

/-- JS `s.replace('@', '')`: only the first occurrence is replaced. -/
def stripFirstAt (s : String) : String :=
  (removeFirstChar '@' s.toList).asString

/-- A Telegram message entity: `{type, offset, length, url?}`. -/
structure Entity where
  type : String
  offset : Nat
  length : Nat
  url : Option String
deriving DecidableEq

/-- A Telegram user as read by the engine: `{id, is_bot}`. -/
structure User where
  id : Nat
  is_bot : Bool
deriving DecidableEq

/-- The fields of an inbound message the engine reads.  `chat` is the chat id
(`message.chat.id`) and `sender` is `message.from`; both may be missing. -/
structure MsgData where
  message_id : Nat
  chat : Option Nat
  sender : Option User
  date : Option Nat
  text : Option String
  caption : Option String
  entities : Option (List Entity)
  caption_entities : Option (List Entity)
deriving DecidableEq

/-- `getText(message)`: `message?.text || message?.caption || ''`. -/
def getText (m : MsgData) : String :=
  match strTruthy m.text with
  | some t => t
  | none =>
    match strTruthy m.caption with
    | some c => c
    | none => ""

/-- `message.entities || message.caption_entities || []` - arrays are truthy even
when empty, so presence, not emptiness, selects the list. -/
def getEntities (m : MsgData) : List Entity :=
  match m.entities with
  | some es => es
  | none =>
    match m.caption_entities with
    | some es => es
    | none => []

/-- The loop body of `extractFromEntities`: for each entity in order, a `url`
entity with a non-empty span substring returns that substring; a `text_link`
entity with a truthy `url` field returns that url. -/
def extractLoop (text : String) : List Entity → Option String
  | [] => none
  | e :: rest =>
    if e.type = "url" ∧ substringJS text e.offset e.length ≠ "" then
      some (substringJS text e.offset e.length)
    else if e.type = "text_link" then
      match strTruthy e.url with
      | some u => some u
      | none => extractLoop text rest
    else extractLoop text rest

/-- `extractFromEntities(message)`. -/
def extractFromEntities (m : MsgData) : Option String :=
  extractLoop (getText m) (getEntities m)

/-- The hit a single entity can produce in the extractor's in-order scan;
used to characterize `extractFromEntities` as a first-hit search. -/
def entityFirstHit (text : String) (e : Entity) : Option String :=
  if e.type = "url" then
    (if substringJS text e.offset e.length ≠ "" then
      some (substringJS text e.offset e.length)
    else none)
  else if e.type = "text_link" then strTruthy e.url
  else none

/-- The result of parsing a string with the host `URL` class: the fields the
engine reads (`protocol`, `hostname`, `pathname`, `searchParams`) plus the
serialization `toString()`. -/
structure ParsedUrl where
  protocol : String
  hostname : String
  pathname : String
  query : List (String × String)
  serialized : String
deriving DecidableEq

/-- `url.searchParams.get(k)`: first value for the key, or null. -/
def getParam (u : ParsedUrl) (k : String) : Option String :=
  (u.query.find? (fun p => p.1 = k)).map (fun p => p.2)

/-- The host runtime's URL library, abstracted: `parse s` is `new URL(s)`
(`none` when the constructor throws), and `buildWatchUrl v t` is
`new URL('https://www.youtube.com/watch')` after `searchParams.set('v', v)`,
optionally `searchParams.set('t', t)`, then `toString()`. -/
structure UrlImpl where
  parse : String → Option ParsedUrl
  buildWatchUrl : String → Option String → String

/-- The case-insensitive test `candidate.match(/^https?:\/\//i)`. -/
def hasHttpScheme (s : String) : Bool :=
  listPre "http://".toList (strLower s).toList ||
    listPre "https://".toList (strLower s).toList

/-- The result shape of `validateCandidate`: `{url, invalid}`. -/
structure ValidationResult where
  url : Option String
  invalid : Bool
deriving DecidableEq

/-- `validateCandidate(url)` from index.js. -/
def validateCandidate (impl : UrlImpl) (url : Option String) : ValidationResult :=
  match strTruthy url with
  | none => ⟨none, false⟩
  | some u =>
    let candidate := if hasHttpScheme u then u else "https://" ++ u
    match impl.parse candidate with
    | none => ⟨none, true⟩
    | some parsed =>
      if strLower parsed.protocol = "http:" ∨ strLower parsed.protocol = "https:" then
        ⟨some parsed.serialized, false⟩
      else ⟨none, false⟩

/-- A raw candidate with provenance: `{raw, sourceId}`. -/
structure Candidate where
  raw : Option String
  sourceId : Option Nat
deriving DecidableEq

/-- The result shape of `findUrl`: `{url, invalid, sourceMessageId}`. -/
structure FindResult where
  url : Option String
  invalid : Bool
  sourceMessageId : Option Nat
deriving DecidableEq

/-- The loop of `findUrl`: skip falsy raws; return on the first candidate that
validates to a truthy url or to an invalid result, with `sourceId || null`. -/
def findLoop (impl : UrlImpl) : List Candidate → FindResult
  | [] => ⟨none, false, none⟩
  | cand :: rest =>
    match strTruthy cand.raw with
    | none => findLoop impl rest
    | some c =>
      let result := validateCandidate impl (some c)
      if strTruthy result.url ≠ none then
        ⟨result.url, result.invalid, truthyNat cand.sourceId⟩
      else if result.invalid then
        ⟨result.url, result.invalid, truthyNat cand.sourceId⟩
      else findLoop impl rest

/-- The context of one inbound Telegraf update, restricted to what the handler
reads: `ctx.chat.type`, `ctx.message`, `ctx.message.reply_to_message`, the
resolved bot username (`ctx.botInfo?.username || bot.botInfo?.username || ''`)
and the resolved bot id (`ctx.botInfo?.id || bot.botInfo?.id`, as an Option). -/
structure Ctx where
  chatType : String
  msg : MsgData
  reply : Option MsgData
  botUsername : String
  botId : Option Nat
deriving DecidableEq

/-- `ctx.from?.id` (in Telegraf, `ctx.from` is the message's `from`). -/
def ctxFromId (c : Ctx) : Option Nat :=
  c.msg.sender.map User.id

/-- `canUseReply = reply && !reply.from?.is_bot`. -/
def canUseReply (c : Ctx) : Bool :=
  match c.reply with
  | none => false
  | some r =>
    match r.sender with
    | some u => !u.is_bot
    | none => true

/-- A stored `MessageSnapshot` (from `snapshotUserMessage`): chat id, author id,
timestamp in ms, message id, and the already-extracted URL - never the text. -/
structure MessageSnapshot where
  chatId : Nat
  fromId : Nat
  date : Nat
  message_id : Nat
  url : Option String
deriving DecidableEq

/-- `findUrl(ctx, previousMessage)`: the Candidate Resolver.  Candidates are
(1) the current message, (2) the replied-to message when human-authored, and
(3) the remembered previous message when it carries a stored URL. -/
def findUrl (impl : UrlImpl) (c : Ctx) (previousMessage : Option MessageSnapshot) :
    FindResult :=
  let cand1 : Candidate := ⟨extractFromEntities c.msg, some c.msg.message_id⟩
  let cand2 : Candidate :=
    if canUseReply c then
      ⟨c.reply.bind extractFromEntities, c.reply.map MsgData.message_id⟩
    else ⟨none, none⟩
  let candidates :=
    match previousMessage with
    | some prev =>
      if strTruthy prev.url ≠ none then
        [cand1, cand2, ⟨prev.url, some prev.message_id⟩]
      else [cand1, cand2]
    | none => [cand1, cand2]
  findLoop impl candidates

/-- The entity loop of `messageMentionsBot`: a `mention` entity whose span,
lowercased, equals the mention tag. -/
def mentionLoop (text mentionTag : String) : List Entity → Bool
  | [] => false
  | e :: rest =>
    if e.type = "mention" ∧ strLower (substringJS text e.offset e.length) = mentionTag then
      true
    else mentionLoop text mentionTag rest

/-- `messageMentionsBot(ctx)`: entity scan, then a case-insensitive substring
fallback on the whole text. -/
def messageMentionsBot (c : Ctx) : Bool :=
  let mentionTag := "@" ++ strLower (stripFirstAt c.botUsername)
  let text := getText c.msg
  mentionLoop text mentionTag (getEntities c.msg) || containsSub (strLower text) mentionTag

/-- `isReplyToBot(ctx)`. -/
def isReplyToBot (c : Ctx) : Bool :=
  match c.reply, truthyNat c.botId with
  | some r, some bid =>
    match r.sender with
    | some u => u.id = bid
    | none => false
  | _, _ => false

/-- `PROMPT_GRACE_PERIOD_MS = 60_000`. -/
def PROMPT_GRACE_PERIOD_MS : Nat := 60000

/-- `PREVIOUS_MESSAGE_WINDOW_MS = 30_000`. -/
def PREVIOUS_MESSAGE_WINDOW_MS : Nat := 30000

/-- The anti-replay bucket `{set, queue}` for one chat.  The JS `Set` is
modelled as a duplicate-free list in insertion order. -/
structure Bucket where
  set : List Nat
  queue : List Nat
deriving DecidableEq

/-- Per-chat session state: `promptWindows.get(chatId)`,
`lastUserMessages.get(chatId)`, `usedMessagesByChat.get(chatId)` (an absent
bucket behaves exactly like an empty one through the bucket API). -/
structure ChatState where
  promptWindow : Option Nat
  lastMessage : Option MessageSnapshot
  used : Bucket
deriving DecidableEq

/-- `isWithinPromptWindow(chatId)`: a truthy stored timestamp at most the grace
period old (JS `Date.now() - lastPrompt <= 60000`; a clock running backwards
gives a negative difference, which Nat truncation maps to 0 - within, as in JS). -/
def isWithinPromptWindow (now : Nat) (w : Option Nat) : Bool :=
  match truthyNat w with
  | none => false
  | some lastPrompt => decide (now - lastPrompt ≤ PROMPT_GRACE_PERIOD_MS)

/-- `consumePromptWindow(chatId)`: returns whether the window was active and
the updated window slot (deleted only when active). -/
def consumePromptWindow (now : Nat) (w : Option Nat) : Bool × Option Nat :=
  (isWithinPromptWindow now w, if isWithinPromptWindow now w then none else w)

/-- `shouldHandleMessage(ctx)`: eligibility plus the (possibly consumed)
prompt-window slot.  Private chats, mentions and replies to the bot return
early without touching the window. -/
def shouldHandleMessage (c : Ctx) (now : Nat) (w : Option Nat) : Bool × Option Nat :=
  if c.chatType = "private" then (true, w)
  else if messageMentionsBot c then (true, w)
  else if isReplyToBot c then (true, w)
  else consumePromptWindow now w

/-- `snapshotUserMessage(message)`: null unless the message has a chat and a
human sender; stores only the already-extracted URL, never the text. -/
def snapshotUserMessage (now : Nat) (m : MsgData) : Option MessageSnapshot :=
  match m.chat, m.sender with
  | some chatId, some u =>
    if u.is_bot then none
    else
      some
        { chatId := chatId
          fromId := u.id
          date := match m.date with
            | some d => if d ≠ 0 then d * 1000 else now
            | none => now
          message_id := m.message_id
          url := extractFromEntities m }
  | _, _ => none

/-- `rememberLastUserMessage(message)` as a transformer of the per-chat
`lastMessage` slot: a null snapshot leaves the slot unchanged. -/
def rememberLastUserMessage (now : Nat) (m : MsgData) (slot : Option MessageSnapshot) :
    Option MessageSnapshot :=
  match snapshotUserMessage now m with
  | some s => some s
  | none => slot

/-- `isMessageUsed(chatId, messageId)` on the chat's bucket. -/
def isMessageUsed (b : Bucket) (messageId : Nat) : Bool :=
  if messageId = 0 then false else b.set.contains messageId

/-- `recentPreviousMessage(chatId, fromId)`. -/
def recentPreviousMessage (st : ChatState) (now : Nat) (fromId : Option Nat) :
    Option MessageSnapshot :=
  match st.lastMessage with
  | none => none
  | some prev =>
    if (match truthyNat fromId with
        | some f => decide (prev.fromId ≠ f)
        | none => false) then none
    else if isMessageUsed st.used prev.message_id then none
    else if now - prev.date > PREVIOUS_MESSAGE_WINDOW_MS then none
    else some prev

/-- `Set.add`: append only when absent, preserving insertion order. -/
def jsSetAdd (s : List Nat) (x : Nat) : List Nat :=
  if s.contains x then s else s ++ [x]

/-- The `for (const id of ids)` loop of `markMessagesUsed`: skip falsy ids,
push onto the queue only when not already in the set, then add to the set. -/
def markLoop (b : Bucket) : List Nat → Bucket
  | [] => b
  | id :: rest =>
    if id = 0 then markLoop b rest
    else
      markLoop
        ⟨jsSetAdd b.set id, if b.set.contains id then b.queue else b.queue ++ [id]⟩
        rest

/-- The `while (bucket.queue.length > 20)` eviction loop over the bucket's
two components, with explicit fuel (each iteration shortens the queue by one,
so `queue.length` fuel always suffices to reach the loop condition). -/
def evictLoop : Nat → List Nat → List Nat → Bucket
  | 0, s, q => ⟨s, q⟩
  | fuel + 1, s, q =>
    if q.length > 20 then
      match q with
      | [] => ⟨s, q⟩
      | old :: rest => evictLoop fuel (s.filter (fun y => y ≠ old)) rest
    else ⟨s, q⟩

/-- `markMessagesUsed(chatId, ids)` on the chat's bucket: the insertion loop
followed by the eviction loop. -/
def markMessagesUsed (b : Bucket) (ids : List Nat) : Bucket :=
  evictLoop (markLoop b ids).queue.length (markLoop b ids).set (markLoop b ids).queue

/-- The reply the handler sends, when any. -/
inductive BotReply
  | invalidUrl
  | prompt
  | added (streamkey : String)
  | failure
deriving DecidableEq

/-- The remembered prior message consulted by the handler:
`messageMentionsBot(ctx) ? recentPreviousMessage(ctx.chat.id, ctx.from?.id) : null`. -/
def priorOf (c : Ctx) (now : Nat) (st : ChatState) : Option MessageSnapshot :=
  if messageMentionsBot c then recentPreviousMessage st now (ctxFromId c) else none

/-- The Candidate Resolver invocation inside the handler. -/
def resolveFor (impl : UrlImpl) (c : Ctx) (now : Nat) (st : ChatState) : FindResult :=
  findUrl impl c (priorOf c now st)

/-- The `bot.on('message')` handler as a transition on per-chat state.
`ext` is the combined outcome of the external calls `ensureRoom` +
`addToPlaylist`: `some streamkey` when both succeed, `none` when either
throws.  The returned pair is (new chat state, reply sent). -/
def handleMessage (impl : UrlImpl) (c : Ctx) (now : Nat) (st : ChatState)
    (ext : Option String) : ChatState × Option BotReply :=
  if (getEntities c.msg).any (fun e => e.type = "bot_command") then (st, none)
  else if (shouldHandleMessage c now st.promptWindow).1 = false then
    ({ st with
        promptWindow := (shouldHandleMessage c now st.promptWindow).2
        lastMessage := rememberLastUserMessage now c.msg st.lastMessage }, none)
  else if (resolveFor impl c now st).invalid = true
      ∧ (resolveFor impl c now st).sourceMessageId = some c.msg.message_id
      ∧ strTruthy (resolveFor impl c now st).url = none then
    ({ st with
        promptWindow := (shouldHandleMessage c now st.promptWindow).2
        lastMessage := rememberLastUserMessage now c.msg st.lastMessage },
      some BotReply.invalidUrl)
  else if strTruthy (resolveFor impl c now st).url = none
      ∨ (resolveFor impl c now st).invalid = true then
    if messageMentionsBot c = false ∧ isReplyToBot c = false ∧ c.chatType ≠ "private" then
      ({ st with
          promptWindow := (shouldHandleMessage c now st.promptWindow).2
          lastMessage := rememberLastUserMessage now c.msg st.lastMessage }, none)
    else
      ({ st with
          promptWindow := some now
          lastMessage := rememberLastUserMessage now c.msg st.lastMessage },
        some BotReply.prompt)
  else
    match ext with
    | some key =>
      ({ promptWindow := (shouldHandleMessage c now st.promptWindow).2
         lastMessage := rememberLastUserMessage now c.msg
           (if (priorOf c now st).isSome then none else st.lastMessage)
         used := markMessagesUsed st.used
           (((match (resolveFor impl c now st).sourceMessageId with
              | some s => [s]
              | none => []) ++ [c.msg.message_id]).filter (fun i => i ≠ 0)) },
        some (BotReply.added key))
    | none =>
      ({ st with
          promptWindow := (shouldHandleMessage c now st.promptWindow).2
          lastMessage := rememberLastUserMessage now c.msg
            (if (priorOf c now st).isSome then none else st.lastMessage) },
        some BotReply.failure)

/-- `youtubeIdFromUrl(urlString)` from src/w2g.js. -/
def youtubeIdFromUrl (impl : UrlImpl) (urlString : String) : Option String :=
  match impl.parse urlString with
  | none => none
  | some url =>
    if url.hostname = "youtu.be" then some (url.pathname.drop 1)
    else if containsSub url.hostname "youtube.com" then
      match strTruthy (getParam url "v") with
      | some v => some v
      | none =>
        match (url.pathname.splitOn "/").filter (fun s => s ≠ "") with
        | _ :: p2 :: _ => some p2
        | _ => none
    else none

/-- `canonicalizeUrl(urlString)` from src/w2g.js: rewrite only when a truthy
YouTube id was extracted; a parse failure inside the rewrite falls through to
the original string. -/
def canonicalizeUrl (impl : UrlImpl) (urlString : String) : String :=
  match strTruthy (youtubeIdFromUrl impl urlString) with
  | none => urlString
  | some youtubeId =>
    match impl.parse urlString with
    | none => urlString
    | some url =>
      impl.buildWatchUrl youtubeId
        (match strTruthy (getParam url "t") with
         | some t => some t
         | none => strTruthy (getParam url "start"))

/-! ### Concrete fixtures for witnesses and counterexamples -/

/-- Parsed form of `http://a.com` under a WHATWG-style parser. -/
def pHttpA : ParsedUrl :=
  ⟨"http:", "a.com", "/", [], "http://a.com/"⟩

/-- Parsed form of `https://example.com`. -/
def pHttpsEx : ParsedUrl :=
  ⟨"https:", "example.com", "/", [], "https://example.com/"⟩

/-- A concrete instance of the host URL library, defined on the handful of
strings the witnesses exercise (everything else fails to parse, as the real
constructor does on garbage such as `https://%%%`). -/
def impl0 : UrlImpl where
  parse := fun s =>
    if s = "http://a.com" then some pHttpA
    else if s = "https://example.com" then some pHttpsEx
    else none
  buildWatchUrl := fun v t =>
    "https://www.youtube.com/watch?v=" ++ v ++
      (match t with
       | some tv => "&t=" ++ tv
       | none => "")

/-- A human-authored replied-to message carrying `http://a.com`, id 5. -/
def replyMsgA : MsgData :=
  ⟨5, some 1, some ⟨8, false⟩, some 100, some "http://a.com", none,
    some [⟨"url", 0, 12, none⟩], none⟩

/-- A group message (id 10) that mentions the bot and replies to `replyMsgA`. -/
def msgMentionOnly : MsgData :=
  ⟨10, some 1, some ⟨7, false⟩, some 200, some "@mybot", none,
    some [⟨"mention", 0, 6, none⟩], none⟩

/-- Context for the C1 counterexample: re-tagging the bot on a reply to the
already-consumed message 5. -/
def ctxC1 : Ctx :=
  ⟨"group", msgMentionOnly, some replyMsgA, "mybot", some 42⟩

/-- Chat state in which message id 5 has already been consumed. -/
def stC1 : ChatState :=
  ⟨none, none, ⟨[5], [5]⟩⟩

/-- A mention message (id 10) whose `from` field is absent. -/
def msgNoSender : MsgData :=
  ⟨10, some 1, none, some 200, some "@mybot", none,
    some [⟨"mention", 0, 6, none⟩], none⟩

/-- Context for the C2 counterexample. -/
def ctxC2 : Ctx :=
  ⟨"group", msgNoSender, none, "mybot", some 42⟩

/-- A fresh, unused remembered snapshot of message 5 holding `http://a.com`. -/
def prevSnapA : MessageSnapshot :=
  ⟨1, 7, 100000, 5, some "http://a.com"⟩

/-- Chat state remembering `prevSnapA`, nothing consumed. -/
def stPrevA : ChatState :=
  ⟨none, some prevSnapA, ⟨[], []⟩⟩

/-- A message whose entity list has a `text_link` before a `url` span. -/
def msgLinkBeforeUrl : MsgData :=
  ⟨3, some 1, some ⟨7, false⟩, some 100, some "http://b.com", none,
    some [⟨"text_link", 0, 0, some "http://a.com"⟩, ⟨"url", 0, 12, none⟩], none⟩

/-- A group message (id 11) mentioning the bot and carrying a URL span. -/
def msgMentionWithUrl : MsgData :=
  ⟨11, some 1, some ⟨7, false⟩, some 100, some "@mybot http://a.com", none,
    some [⟨"mention", 0, 6, none⟩, ⟨"url", 7, 12, none⟩], none⟩

/-- Context for the C7 counterexample. -/
def ctxC7 : Ctx :=
  ⟨"group", msgMentionWithUrl, none, "mybot", some 42⟩

/-- Chat state with an open invitation window stamped at t = 1000. -/
def stC7 : ChatState :=
  ⟨some 1000, none, ⟨[], []⟩⟩

/-- An old remembered snapshot of message 3. -/
def oldSnap3 : MessageSnapshot :=
  ⟨1, 7, 100, 3, none⟩

/-- A passive group message (id 12) authored by another bot. -/
def msgFromBot : MsgData :=
  ⟨12, some 1, some ⟨99, true⟩, some 100, some "hello http://a.com", none,
    some [⟨"url", 6, 12, none⟩], none⟩

/-- Context for the C8 counterexample. -/
def ctxC8 : Ctx :=
  ⟨"group", msgFromBot, none, "mybot", some 42⟩

/-- Chat state remembering `oldSnap3`, no open window. -/
def stC8 : ChatState :=
  ⟨none, some oldSnap3, ⟨[], []⟩⟩

/-- A state remembering the snapshot of message 5 while id 5 is already used. -/
def stUsedPrev : ChatState :=
  ⟨none, some prevSnapA, ⟨[5], [5]⟩⟩

/-- A message with only a formatting entity, no URL-bearing entity. -/
def msgPlain : MsgData :=
  ⟨4, some 1, some ⟨7, false⟩, some 100, some "hello there", none,
    some [⟨"bold", 0, 5, none⟩], none⟩

/-- Same identity fields as `msgPlain`, entirely different text and entities. -/
def msgPlain2 : MsgData :=
  ⟨4, some 1, some ⟨7, false⟩, some 100, some "different words", none,
    some [⟨"italic", 1, 3, none⟩], none⟩

/-- A plain group message (id 13) carrying only a URL span, no mention. -/
def msgUrlOnly : MsgData :=
  ⟨13, some 1, some ⟨7, false⟩, some 100, some "http://a.com", none,
    some [⟨"url", 0, 12, none⟩], none⟩

/-- Context of a window-fulfilling group message (no mention, no reply). -/
def ctxWindowFulfill : Ctx :=
  ⟨"group", msgUrlOnly, none, "mybot", some 42⟩

/-- A passive human group message (id 14) with no entities at all. -/
def msgPassiveHuman : MsgData :=
  ⟨14, some 1, some ⟨7, false⟩, some 300, some "hello", none, none, none⟩

/-- Context of the passive human message. -/
def ctxPassive : Ctx :=
  ⟨"group", msgPassiveHuman, none, "mybot", some 42⟩

/-! ### Helper lemmas -/

/-- The extractor loop is the first-hit search over entities in list order. -/
theorem extractLoop_eq_findSome (text : String) :
    ∀ es : List Entity, extractLoop text es = es.findSome? (entityFirstHit text)
  | [] => rfl
  | e :: rest => by
    by_cases hu : e.type = "url"
    · by_cases hs : substringJS text e.offset e.length = ""
      · have ht : e.type ≠ "text_link" := by simp [hu]
        simp [extractLoop, entityFirstHit, List.findSome?, hu, hs, ht,
          extractLoop_eq_findSome text rest]
      · simp [extractLoop, entityFirstHit, List.findSome?, hu, hs]
    · by_cases ht : e.type = "text_link"
      · cases hurl : strTruthy e.url <;>
          simp [extractLoop, entityFirstHit, List.findSome?, hu, ht, hurl,
            extractLoop_eq_findSome text rest]
      · simp [extractLoop, entityFirstHit, List.findSome?, hu, ht,
          extractLoop_eq_findSome text rest]

/-- With no URL-bearing entity in the list the extractor loop yields nothing. -/
theorem extractLoop_none (text : String) :
    ∀ es : List Entity,
      (∀ e ∈ es, e.type ≠ "url" ∧ e.type ≠ "text_link") → extractLoop text es = none
  | [], _ => rfl
  | e :: rest, h => by
    have he := h e (by simp)
    have hrest := extractLoop_none text rest (fun e' he' => h e' (List.mem_cons_of_mem _ he'))
    simp [extractLoop, he.1, he.2, hrest]

/-- When classification declares a message ineligible, the prompt-window slot
is returned unchanged. -/
theorem shouldHandle_not_eligible_snd (c : Ctx) (now : Nat) (w : Option Nat)
    (h : (shouldHandleMessage c now w).1 = false) :
    (shouldHandleMessage c now w).2 = w := by
  unfold shouldHandleMessage consumePromptWindow at h ⊢
  split_ifs at h ⊢ <;> simp_all

/-- A group message that neither mentions the bot nor replies to it, arriving
while the window is open, is classified eligible and consumes the window. -/
theorem shouldHandle_window_open (c : Ctx) (now : Nat) (w : Option Nat)
    (hpriv : c.chatType ≠ "private") (hm : messageMentionsBot c = false)
    (hr : isReplyToBot c = false) (hw : isWithinPromptWindow now w = true) :
    shouldHandleMessage c now w = (true, none) := by
  simp [shouldHandleMessage, consumePromptWindow, hpriv, hm, hr, hw]

/-! ### Claim theorems -/

/-- C1 counterexample: with message id 5 already in the chat's used set, a
message re-tagging the bot on a reply to message 5 makes the Candidate
Resolver return a candidate whose source message id is 5 (with a usable URL),
so the used id is offered again via the replied-to-message path. -/
theorem claim1_counterexample :
    isMessageUsed stC1.used 5 = true
    ∧ (findUrl impl0 ctxC1 (priorOf ctxC1 1000 stC1)).sourceMessageId = some 5
    ∧ (findUrl impl0 ctxC1 (priorOf ctxC1 1000 stC1)).url = some "http://a.com/" := by
  decide

/-- C1 amended: replay protection filters only the remembered-last-message
path - a remembered snapshot whose id is in the used set is never returned by
`recentPreviousMessage`; the current-message and replied-to paths are not
filtered against `usedMessageIds`. -/
theorem claim1_amended (st : ChatState) (now : Nat) (fid : Option Nat)
    (prev : MessageSnapshot) (hlast : st.lastMessage = some prev)
    (hused : isMessageUsed st.used prev.message_id = true) :
    recentPreviousMessage st now fid = none := by
  simp only [recentPreviousMessage, hlast]
  split_ifs <;> simp_all

/-- C1 witness: a used remembered snapshot is not offered again. -/
theorem claim1_amended_witness :
    stUsedPrev.lastMessage = some prevSnapA
    ∧ isMessageUsed stUsedPrev.used prevSnapA.message_id = true
    ∧ recentPreviousMessage stUsedPrev 100001 (some 7) = none :=
  ⟨rfl, by decide, claim1_amended stUsedPrev 100001 (some 7) prevSnapA rfl (by decide)⟩

/-- C3 counterexample: a `url`-type entity yields the non-empty substring
`http://b.com`, yet the extractor returns the earlier `text_link` value
`http://a.com`, so URL-span entities do not take priority over attached-link
entities independent of position. -/
theorem claim3_counterexample :
    (∃ e ∈ getEntities msgLinkBeforeUrl, e.type = "url"
        ∧ substringJS (getText msgLinkBeforeUrl) e.offset e.length = "http://b.com")
    ∧ extractFromEntities msgLinkBeforeUrl = some "http://a.com"
    ∧ some "http://a.com" ≠ some "http://b.com" := by
  decide

/-- C3 amended: the extractor performs a single in-order scan and returns the
value of the first entity that hits - either a `url` span with a non-empty
substring or a `text_link` with a truthy url - so priority is positional, not
by entity type. -/
theorem claim3_amended (m : MsgData) :
    extractFromEntities m = (getEntities m).findSome? (entityFirstHit (getText m)) :=
  extractLoop_eq_findSome (getText m) (getEntities m)

/-- C4: (1) with no `url`-type and no `text_link`-type entity the extractor
returns none, whatever the text and caption say; (2) the snapshot depends on
the message only through its identity fields and the already-extracted URL,
never through the text (noninterference form of the privacy boundary). -/
theorem claim4_privacy :
    (∀ m : MsgData,
        (∀ e ∈ getEntities m, e.type ≠ "url" ∧ e.type ≠ "text_link") →
        extractFromEntities m = none)
    ∧ (∀ (now : Nat) (m1 m2 : MsgData),
        m1.chat = m2.chat → m1.sender = m2.sender → m1.date = m2.date →
        m1.message_id = m2.message_id →
        extractFromEntities m1 = extractFromEntities m2 →
        snapshotUserMessage now m1 = snapshotUserMessage now m2) := by
  constructor
  · intro m h
    exact extractLoop_none (getText m) (getEntities m) h
  · intro now m1 m2 h1 h2 h3 h4 h5
    unfold snapshotUserMessage
    rw [h1, h2, h3, h4, h5]

/-- C4 witness: a message with only formatting entities extracts nothing, and
two messages differing only in text/caption/entities-without-URLs produce the
same snapshot. -/
theorem claim4_privacy_witness :
    extractFromEntities msgPlain = none
    ∧ snapshotUserMessage 500 msgPlain = snapshotUserMessage 500 msgPlain2 :=
  ⟨claim4_privacy.1 msgPlain (by decide),
    claim4_privacy.2 500 msgPlain msgPlain2 rfl rfl rfl rfl (by decide)⟩

/-- C5 counterexample: a remembered message whose elapsed age is exactly the
30000 ms window is still returned as reusable - the code expires only on
strictly greater elapsed time. -/
theorem claim5_counterexample :
    stPrevA.lastMessage = some prevSnapA
    ∧ 130000 - prevSnapA.date = PREVIOUS_MESSAGE_WINDOW_MS
    ∧ recentPreviousMessage stPrevA 130000 (some 7) = some prevSnapA := by
  decide

/-- C5 amended: the remembered message expires exactly when elapsed time is
strictly greater than the window; at elapsed time equal to the window it is
still reusable (given author match and not-used). -/
theorem claim5_amended (st : ChatState) (now : Nat) (fid : Option Nat)
    (prev : MessageSnapshot) (hlast : st.lastMessage = some prev) :
    (now - prev.date > PREVIOUS_MESSAGE_WINDOW_MS →
      recentPreviousMessage st now fid = none)
    ∧ ((∀ f, truthyNat fid = some f → prev.fromId = f) →
        isMessageUsed st.used prev.message_id = false →
        now - prev.date = PREVIOUS_MESSAGE_WINDOW_MS →
        recentPreviousMessage st now fid = some prev) := by
  constructor
  · intro h
    simp only [recentPreviousMessage, hlast]
    split_ifs <;> simp_all
  · intro hauthor hused hb
    have hB : ¬(now - prev.date > PREVIOUS_MESSAGE_WINDOW_MS) := by omega
    simp only [recentPreviousMessage, hlast]
    cases hf : truthyNat fid with
    | none => simp [hf, hused, hB]
    | some f =>
      have hfe := hauthor f hf
      simp [hf, hused, hB, hfe]

/-- C5 witness: at 40000 ms elapsed the snapshot is expired; at exactly
30000 ms elapsed it is returned. -/
theorem claim5_amended_witness :
    recentPreviousMessage stPrevA 140000 (some 7) = none
    ∧ recentPreviousMessage stPrevA 130000 (some 7) = some prevSnapA :=
  ⟨(claim5_amended stPrevA 140000 (some 7) prevSnapA rfl).1 (by decide),
    (claim5_amended stPrevA 130000 (some 7) prevSnapA rfl).2
      (by intro f hf; simp [truthyNat] at hf; subst hf; rfl) (by decide) (by decide)⟩

/-- C6: for a non-empty raw candidate, the string is prefixed with
`https://` exactly when it lacks an http(s) scheme prefix (the `cand`
hypothesis), and then: parse failure yields the "invalid" result (distinct
from absent); a successful parse with a non-http(s) scheme yields the absent
result without error; otherwise the canonical serialization is returned. -/
theorem claim6_validator (impl : UrlImpl) (u cand : String) (hne : u ≠ "")
    (hcand : cand = if hasHttpScheme u then u else "https://" ++ u) :
    (impl.parse cand = none →
      validateCandidate impl (some u) = ⟨none, true⟩)
    ∧ (∀ p, impl.parse cand = some p →
        strLower p.protocol ≠ "http:" → strLower p.protocol ≠ "https:" →
        validateCandidate impl (some u) = ⟨none, false⟩)
    ∧ (∀ p, impl.parse cand = some p →
        (strLower p.protocol = "http:" ∨ strLower p.protocol = "https:") →
        validateCandidate impl (some u) = ⟨some p.serialized, false⟩) := by
  subst hcand
  have hstep : validateCandidate impl (some u)
      = (match impl.parse (if hasHttpScheme u then u else "https://" ++ u) with
         | none => ⟨none, true⟩
         | some parsed =>
           if strLower parsed.protocol = "http:" ∨ strLower parsed.protocol = "https:" then
             ⟨some parsed.serialized, false⟩
           else ⟨none, false⟩) := by
    simp [validateCandidate, strTruthy, hne]
  refine ⟨fun hp => ?_, fun p hp hh hhs => ?_, fun p hp hor => ?_⟩
  · rw [hstep, hp]
  · rw [hstep, hp]
    simp [hh, hhs]
  · rw [hstep, hp]
    simp only [if_pos hor]

/-- C6 witness: a schemeless candidate is normalized and serialized; a
candidate the parser rejects is reported invalid, not absent. -/
theorem claim6_validator_witness :
    validateCandidate impl0 (some "example.com") = ⟨some "https://example.com/", false⟩
    ∧ validateCandidate impl0 (some "%%%") = ⟨none, true⟩ :=
  ⟨(claim6_validator impl0 "example.com" "https://example.com" (by decide)
      (by decide)).2.2 pHttpsEx (by decide) (Or.inr (by decide)),
    (claim6_validator impl0 "%%%" "https://%%%" (by decide) (by decide)).1 (by decide)⟩

/-- C10: when no YouTube id is extracted - the string does not parse, or the
host is neither `youtu.be` nor contains `youtube.com` (and in general whenever
`youtubeIdFromUrl` yields nothing truthy) - `canonicalizeUrl` returns its
input unchanged. -/
theorem claim10_canonicalize (impl : UrlImpl) (s : String) :
    (impl.parse s = none → youtubeIdFromUrl impl s = none)
    ∧ (∀ u, impl.parse s = some u → u.hostname ≠ "youtu.be" →
        containsSub u.hostname "youtube.com" = false →
        youtubeIdFromUrl impl s = none)
    ∧ (strTruthy (youtubeIdFromUrl impl s) = none → canonicalizeUrl impl s = s) := by
  refine ⟨fun hp => ?_, fun u hp hh hc => ?_, fun hid => ?_⟩
  · simp [youtubeIdFromUrl, hp]
  · simp [youtubeIdFromUrl, hp, hh, hc]
  · simp [canonicalizeUrl, hid]

/-- C10 witness: an unparseable string and a parseable non-YouTube URL both
pass through `canonicalizeUrl` unchanged. -/
theorem claim10_canonicalize_witness :
    canonicalizeUrl impl0 "notaurl" = "notaurl"
    ∧ canonicalizeUrl impl0 "http://a.com" = "http://a.com" := by
  constructor
  · have h1 := (claim10_canonicalize impl0 "notaurl").1 (by decide)
    exact (claim10_canonicalize impl0 "notaurl").2.2 (by rw [h1]; rfl)
  · have h2 := (claim10_canonicalize impl0 "http://a.com").2.1 pHttpA (by decide)
      (by decide) (by decide)
    exact (claim10_canonicalize impl0 "http://a.com").2.2 (by rw [h2]; rfl)

/-- The bucket invariant of the anti-replay store: the queue is
duplicate-free and the membership set holds exactly the queued ids. -/
def BucketInv (b : Bucket) : Prop :=
  b.queue.Nodup ∧ ∀ x : Nat, x ∈ b.set ↔ x ∈ b.queue

/-- The insertion loop of `markMessagesUsed` preserves the bucket invariant. -/
theorem markLoop_inv : ∀ (ids : List Nat) (b : Bucket),
    BucketInv b → BucketInv (markLoop b ids)
  | [], _, h => h
  | id :: rest, b, h => by
    simp only [markLoop]
    by_cases h0 : id = 0
    · rw [if_pos h0]
      exact markLoop_inv rest b h
    · rw [if_neg h0]
      by_cases hc : b.set.contains id = true
      · have hb1 : (⟨jsSetAdd b.set id,
            if b.set.contains id then b.queue else b.queue ++ [id]⟩ : Bucket) = b := by
          simp only [jsSetAdd, if_pos hc]
        rw [hb1]
        exact markLoop_inv rest b h
      · have hcf : b.set.contains id = false := by simpa using hc
        have hid : id ∉ b.set := by simpa using hcf
        have hb2 : (⟨jsSetAdd b.set id,
            if b.set.contains id then b.queue else b.queue ++ [id]⟩ : Bucket)
            = ⟨b.set ++ [id], b.queue ++ [id]⟩ := by
          simp only [jsSetAdd, hcf]
          simp
        rw [hb2]
        refine markLoop_inv rest _ ⟨?_, ?_⟩
        · rw [List.nodup_append]
          refine ⟨h.1, List.nodup_singleton id, ?_⟩
          intro a ha hb
          rw [List.mem_singleton] at hb
          subst hb
          exact hid ((h.2 a).mpr ha)
        · intro x
          simp [List.mem_append, h.2 x]

/-- The eviction loop, given enough fuel and the invariant on its components,
preserves the invariant, caps the queue at 20, and drops exactly the
oldest-inserted entries from the front of the queue. -/
theorem evictLoop_spec : ∀ (fuel : Nat) (s q : List Nat),
    q.length ≤ 20 + fuel → q.Nodup → (∀ x : Nat, x ∈ s ↔ x ∈ q) →
    BucketInv (evictLoop fuel s q)
    ∧ (evictLoop fuel s q).queue.length ≤ 20
    ∧ (evictLoop fuel s q).queue = q.drop (q.length - 20)
  | 0, s, q, hlen, hnd, hmem => by
    refine ⟨⟨hnd, hmem⟩, ?_, ?_⟩
    · show q.length ≤ 20
      omega
    show q = q.drop (q.length - 20)
    rw [show q.length - 20 = 0 from by omega, List.drop_zero]
  | fuel + 1, s, q, hlen, hnd, hmem => by
    by_cases hgt : q.length > 20
    · cases q with
      | nil => simp at hgt
      | cons old rest =>
        have hnd2 : rest.Nodup := (List.nodup_cons.mp hnd).2
        have hold : old ∉ rest := (List.nodup_cons.mp hnd).1
        have hmem2 : ∀ x : Nat, x ∈ s.filter (fun y => y ≠ old) ↔ x ∈ rest := by
          intro x
          simp only [List.mem_filter, decide_eq_true_eq]
          constructor
          · rintro ⟨hxs, hne⟩
            rcases List.mem_cons.mp ((hmem x).mp hxs) with h | h
            · exact absurd h hne
            · exact h
          · intro hx
            exact ⟨(hmem x).mpr (List.mem_cons_of_mem _ hx), fun he => hold (he ▸ hx)⟩
        have hlen2 : rest.length ≤ 20 + fuel := by
          simp only [List.length_cons] at hlen
          omega
        have hrec := evictLoop_spec fuel (s.filter (fun y => y ≠ old)) rest hlen2 hnd2 hmem2
        have hstep : evictLoop (fuel + 1) s (old :: rest)
            = evictLoop fuel (s.filter (fun y => y ≠ old)) rest := by
          simp only [evictLoop]
          rw [if_pos hgt]
        rw [hstep]
        refine ⟨hrec.1, hrec.2.1, ?_⟩
        rw [hrec.2.2]
        have harith : (old :: rest : List Nat).length - 20 = (rest.length - 20) + 1 := by
          simp only [List.length_cons] at hgt ⊢
          omega
        rw [harith, List.drop_succ_cons]
    · have hstep : evictLoop (fuel + 1) s q = ⟨s, q⟩ := by
        cases q with
        | nil => rfl
        | cons old rest =>
          simp only [evictLoop]
          rw [if_neg hgt]
      rw [hstep]
      refine ⟨⟨hnd, hmem⟩, ?_, ?_⟩
      · show q.length ≤ 20
        omega
      show q = q.drop (q.length - 20)
      rw [show q.length - 20 = 0 from by omega, List.drop_zero]

/-- C9: after every `markMessagesUsed` the bucket invariant holds (no
duplicates; set and queue hold exactly the same ids), the queue holds at most
20 ids, and the surviving queue is the insertion-order queue with exactly its
oldest entries dropped (FIFO eviction). -/
theorem claim9_bounded_set (b : Bucket) (ids : List Nat) (hinv : BucketInv b) :
    BucketInv (markMessagesUsed b ids)
    ∧ (markMessagesUsed b ids).queue.length ≤ 20
    ∧ (markMessagesUsed b ids).queue
        = (markLoop b ids).queue.drop ((markLoop b ids).queue.length - 20) := by
  have h1 := markLoop_inv ids b hinv
  have h2 := evictLoop_spec (markLoop b ids).queue.length (markLoop b ids).set
    (markLoop b ids).queue (by omega) h1.1 h1.2
  exact ⟨h2.1, h2.2.1, h2.2.2⟩

/-- C9 witness: inserting 25 fresh ids into an empty bucket preserves the
invariant and leaves at most 20 ids. -/
theorem claim9_bounded_set_witness :
    BucketInv (markMessagesUsed ⟨[], []⟩ ((List.range 25).map (fun i => i + 1)))
    ∧ (markMessagesUsed ⟨[], []⟩ ((List.range 25).map (fun i => i + 1))).queue.length
        ≤ 20 := by
  have hinv : BucketInv (⟨[], []⟩ : Bucket) := ⟨List.nodup_nil, by simp⟩
  have h := claim9_bounded_set ⟨[], []⟩ ((List.range 25).map (fun i => i + 1)) hinv
  exact ⟨h.1, h.2.1⟩

/-- C2 counterexample: a mention message from a sender-less context consumes
the remembered prior message as source; when the external call fails the bot
does reply with the failure notice and marks nothing used, but the remembered
`lastMessage` slot IS cleared (it ends up empty), contradicting the claim
that the slot is not cleared on failure. -/
theorem claim2_counterexample :
    stPrevA.lastMessage = some prevSnapA
    ∧ priorOf ctxC2 110000 stPrevA = some prevSnapA
    ∧ (handleMessage impl0 ctxC2 110000 stPrevA none).2 = some BotReply.failure
    ∧ (handleMessage impl0 ctxC2 110000 stPrevA none).1.used = stPrevA.used
    ∧ (handleMessage impl0 ctxC2 110000 stPrevA none).1.lastMessage = none := by
  decide

/-- C2 amended: when a message reaches the submission step and the external
calls fail, the bot replies with the generic failure notice and adds nothing
to `usedMessageIds`; the prompt-window slot keeps its post-classification
value; but the remembered slot is not preserved - it is cleared whenever a
remembered prior message was consulted and then overwritten by the current
message's snapshot when one exists. -/
theorem claim2_amended (impl : UrlImpl) (c : Ctx) (now : Nat) (st : ChatState)
    (hcmd : (getEntities c.msg).any (fun e => e.type = "bot_command") = false)
    (helig : (shouldHandleMessage c now st.promptWindow).1 = true)
    (hurl : strTruthy (resolveFor impl c now st).url ≠ none)
    (hinv : (resolveFor impl c now st).invalid = false) :
    (handleMessage impl c now st none).2 = some BotReply.failure
    ∧ (handleMessage impl c now st none).1.used = st.used
    ∧ (handleMessage impl c now st none).1.promptWindow
        = (shouldHandleMessage c now st.promptWindow).2
    ∧ (handleMessage impl c now st none).1.lastMessage
        = rememberLastUserMessage now c.msg
            (if (priorOf c now st).isSome then none else st.lastMessage) := by
  simp [handleMessage, hcmd, helig, hurl, hinv]

/-- C2 witness: the failure scenario of the counterexample context satisfies
the amended description. -/
theorem claim2_amended_witness :
    (handleMessage impl0 ctxC2 110000 stPrevA none).2 = some BotReply.failure
    ∧ (handleMessage impl0 ctxC2 110000 stPrevA none).1.used = stPrevA.used
    ∧ (handleMessage impl0 ctxC2 110000 stPrevA none).1.promptWindow
        = (shouldHandleMessage ctxC2 110000 stPrevA.promptWindow).2
    ∧ (handleMessage impl0 ctxC2 110000 stPrevA none).1.lastMessage
        = rememberLastUserMessage 110000 ctxC2.msg
            (if (priorOf ctxC2 110000 stPrevA).isSome then none else stPrevA.lastMessage) :=
  claim2_amended impl0 ctxC2 110000 stPrevA (by decide) (by decide) (by decide) (by decide)

/-- C7 counterexample: with the invitation window open, an eligible mention
message carrying a URL is processed to a successful add, yet the window
survives untouched - eligibility via mention does not consume the window, so
the chat does not transition to Idle. -/
theorem claim7_counterexample :
    isWithinPromptWindow 2000 stC7.promptWindow = true
    ∧ messageMentionsBot ctxC7 = true
    ∧ (handleMessage impl0 ctxC7 2000 stC7 (some "k")).2 = some (BotReply.added "k")
    ∧ (handleMessage impl0 ctxC7 2000 stC7 (some "k")).1.promptWindow = some 1000 := by
  decide

/-- C7 amended: the open window is consumed (promptDeadline cleared) exactly
when the eligible message is a group message that neither mentions the bot
nor replies to it - i.e. when the window itself supplied eligibility; and the
window counts as closed once strictly more than the grace period has elapsed. -/
theorem claim7_amended :
    (∀ (impl : UrlImpl) (c : Ctx) (now : Nat) (st : ChatState) (ext : Option String),
      (getEntities c.msg).any (fun e => e.type = "bot_command") = false →
      c.chatType ≠ "private" →
      messageMentionsBot c = false →
      isReplyToBot c = false →
      isWithinPromptWindow now st.promptWindow = true →
      (handleMessage impl c now st ext).1.promptWindow = none)
    ∧ (∀ now t : Nat, now - t > PROMPT_GRACE_PERIOD_MS →
        isWithinPromptWindow now (some t) = false) := by
  constructor
  · intro impl c now st ext hcmd hpriv hm hr hw
    have hsh := shouldHandle_window_open c now st.promptWindow hpriv hm hr hw
    simp only [handleMessage, hcmd, hsh, hm, hr, hpriv]
    split_ifs <;> cases ext <;> simp_all
  · intro now t h
    unfold isWithinPromptWindow truthyNat PROMPT_GRACE_PERIOD_MS at *
    by_cases ht : t = 0 <;> simp [ht] <;> omega

/-- C7 witness: a window-fulfilling group message (no mention, no reply)
consumes the open window, and a window older than the grace period is closed. -/
theorem claim7_amended_witness :
    (handleMessage impl0 ctxWindowFulfill 2000 stC7 (some "k")).1.promptWindow = none
    ∧ isWithinPromptWindow 70000 (some 1000) = false :=
  ⟨claim7_amended.1 impl0 ctxWindowFulfill 2000 stC7 (some "k") (by decide) (by decide)
      (by decide) (by decide) (by decide),
    claim7_amended.2 70000 1000 (by decide)⟩

/-- C8 counterexample: a passive group message authored by another bot is
ineligible and produces no reply, but the `lastMessage` slot is NOT
overwritten with its snapshot (the sender guard drops bot-authored messages),
contradicting "overwritten for every such message from any sender". -/
theorem claim8_counterexample :
    (shouldHandleMessage ctxC8 500 stC8.promptWindow).1 = false
    ∧ ctxC8.msg.sender = some ⟨99, true⟩
    ∧ (handleMessage impl0 ctxC8 500 stC8 none).2 = none
    ∧ (handleMessage impl0 ctxC8 500 stC8 none).1.lastMessage = some oldSnap3
    ∧ oldSnap3.message_id ≠ ctxC8.msg.message_id := by
  decide

/-- C8 amended: an ineligible group message gets no reply and leaves
`promptDeadline` and `usedMessageIds` unchanged; the `lastMessage` slot is
overwritten with the message's snapshot exactly when the snapshot exists
(chat and human sender present) and is left unchanged otherwise (bot-authored
or sender-less messages). -/
theorem claim8_amended (impl : UrlImpl) (c : Ctx) (now : Nat) (st : ChatState)
    (ext : Option String)
    (hcmd : (getEntities c.msg).any (fun e => e.type = "bot_command") = false)
    (hne : (shouldHandleMessage c now st.promptWindow).1 = false) :
    (handleMessage impl c now st ext).2 = none
    ∧ (handleMessage impl c now st ext).1.promptWindow = st.promptWindow
    ∧ (handleMessage impl c now st ext).1.used = st.used
    ∧ (snapshotUserMessage now c.msg = none →
        (handleMessage impl c now st ext).1.lastMessage = st.lastMessage)
    ∧ (∀ s, snapshotUserMessage now c.msg = some s →
        (handleMessage impl c now st ext).1.lastMessage = some s) := by
  have hsnd := shouldHandle_not_eligible_snd c now st.promptWindow hne
  refine ⟨?_, ?_, ?_, ?_, ?_⟩
  · simp [handleMessage, hcmd, hne]
  · simp [handleMessage, hcmd, hne, hsnd]
  · simp [handleMessage, hcmd, hne]
  · intro hsnap
    simp [handleMessage, hcmd, hne, rememberLastUserMessage, hsnap]
  · intro s hsnap
    simp [handleMessage, hcmd, hne, rememberLastUserMessage, hsnap]

/-- C8 witness: a passive human group message is ineligible; it draws no
reply, leaves window and used ids unchanged, and its snapshot replaces the
remembered slot. -/
theorem claim8_amended_witness :
    (handleMessage impl0 ctxPassive 500 stC8 none).2 = none
    ∧ (handleMessage impl0 ctxPassive 500 stC8 none).1.promptWindow = stC8.promptWindow
    ∧ (handleMessage impl0 ctxPassive 500 stC8 none).1.used = stC8.used
    ∧ (handleMessage impl0 ctxPassive 500 stC8 none).1.lastMessage
        = some ⟨1, 7, 300000, 14, none⟩ := by
  have h := claim8_amended impl0 ctxPassive 500 stC8 none (by decide) (by decide)
  exact ⟨h.1, h.2.1, h.2.2.1, h.2.2.2.2 ⟨1, 7, 300000, 14, none⟩ (by decide)⟩

end W2G
